import Mathlib

/-!
Shallow embedding of the task-plan execution engine of the vix-extension
repository (the `backend_claude` prototype): the CPM data model
(`src/backend_claude/src/domain/cpm/models.py`), the plan executor
(`src/backend_claude/src/domain/mie/services.py`,
`MultimodalInteractionExecutor.execute_plan` and
`_execute_with_verification`), and the session manager
(`src/backend_claude/src/domain/cpm/services.py`,
`ConversationalPlanManager.handle_clarification`).

Modelling conventions:
* External collaborators (the browser-control port, the outcome judge, the
  LLM conversation port, the wall clock) are modelled as call-indexed
  oracles: the n-th call to a collaborator method returns the oracle's
  value at index n.
* A fallible call returns `Except String α`; the `.error` branch models a
  raised Python exception whose `str(e)` is the carried string.
* Python `Dict[str, Any]` payloads are modelled as association lists of
  strings (no claim inspects a payload value).
* `asyncio.sleep` calls are pure delays and are not modelled.  `datetime`
  timestamps are abstracted to `Int`.
* The executor's `execution_log.append` evaluates
  `"timestamp": datetime.utcnow()`, but `mie/services.py` imports the
  `datetime` MODULE (`import datetime`), which has no `utcnow` attribute:
  the log line raises `AttributeError` on every loop iteration in which
  the attempt returned normally, and the loop's own `except` then appends
  a second synthesized failure result and breaks.  The embedding models
  this crash (see `execute_plan_go`); the log's contents themselves are
  never successfully written and are read by no claim.
-/

/-- Lifecycle status of a task action or plan (`cpm/models.py`, `TaskStatus`). -/
inductive TaskStatus where
  | PENDING
  | IN_PROGRESS
  | COMPLETED
  | FAILED
  | CANCELLED
  deriving DecidableEq, Repr

/-- Kind tag of an action (`cpm/models.py`, `ActionType`). -/
inductive ActionType where
  | CLICK
  | TYPE
  | SCROLL
  | WAIT
  | NAVIGATE
  | EXTRACT_INFO
  | SUMMARIZE
  | ANSWER_QUESTION
  deriving DecidableEq, Repr

/-- One atomic step of a plan (`cpm/models.py`, `TaskAction`).  Parameter
values (`Dict[str, Any]`) are abstracted to strings. -/
structure TaskAction where
  id : String
  action_type : ActionType
  target_selector : Option String
  parameters : List (String × String)
  expected_outcome : String
  retry_count : Nat := 0
  max_retries : Nat := 3
  status : TaskStatus := TaskStatus.PENDING
  deriving DecidableEq, Repr

/-- Per-session conversational state (`cpm/models.py`, `ConversationContext`).
Each history message is a string-keyed dict, modelled as an association
list. -/
structure ConversationContext where
  session_id : String
  user_id : String
  current_url : String
  conversation_history : List (List (String × String))
  user_preferences : List (String × String)
  accessibility_needs : List String
  deriving DecidableEq, Repr

/-- An ordered plan of actions (`cpm/models.py`, `TaskPlan`).  The
`created_at` datetime is abstracted to an integer timestamp. -/
structure TaskPlan where
  id : String
  user_intent : String
  actions : List TaskAction
  context : ConversationContext
  status : TaskStatus
  created_at : Int
  estimated_duration_seconds : Int
  checkpoints : List String
  deriving DecidableEq, Repr

/-- Outcome record of one attempt of one action (`cpm/models.py`,
`ExecutionResult`). -/
structure ExecutionResult where
  action_id : String
  success : Bool
  result_data : Option (List (String × String))
  error_message : Option String
  screenshot_path : Option String
  execution_time_ms : Int
  deriving DecidableEq, Repr

/-- Oracle view of the executor's external collaborators
(`mie/services.py`).  `take_screenshot` and `execute_action` are the
`BrowserControlPort` methods; both may raise.  `verify_outcome` is
modelled from the spec: the OutcomeJudge verdict (spec §6,
`OutcomeJudge.verify(pre, post, expected_outcome_text) -> bool`) — the
source's `_verify_action_outcome` gathers the DOM and scene graph and
then returns a placeholder `True` because the vision-model comparison is
unimplemented; the oracle abstracts that missing verdict, and its
`.error` branch models an exception raised by any of the calls inside
`_verify_action_outcome` (`get_current_dom`, `vli.interpret_page`).
`clock` is `asyncio.get_event_loop().time()`, abstracted to integer
milliseconds (the source converts float seconds to ms). -/
structure Ports where
  take_screenshot : Nat → Except String String
  execute_action : Nat → TaskAction → Except String ExecutionResult
  verify_outcome : Nat → Except String Bool
  clock : Nat → Int

/-- Bookkeeping threaded through a run: how many times each collaborator
was called, plus a trace of every status assignment the executor performs
(each Python `action.status = X` would append `(action.id, X)`).  The
source's status assignments (`PENDING`/`FAILED`/`COMPLETED` in the loop,
lines 55-65) all sit after the crashing log append and are unreachable,
so the trace stays empty on every run; it is retained so theorems can
state that fact. -/
structure ExecState where
  shot_calls : Nat := 0
  exec_calls : Nat := 0
  verify_calls : Nat := 0
  clock_calls : Nat := 0
  status_writes : List (String × TaskStatus) := []
  deriving DecidableEq, Repr

/-- Message of the `AttributeError` raised by the logging line: the
Python text is `module 'datetime' has no attribute 'utcnow'` (rendered
here without the quote characters; no claim depends on the exact text,
only on the synthesized failure result that carries it). -/
def datetime_utcnow_error : String :=
  "AttributeError: module datetime has no attribute utcnow"

/-- Embeds `_verify_action_outcome`: one judge consultation (the DOM
fetch, scene-graph construction and verdict are folded into the
`verify_outcome` oracle, see `Ports`). -/
def verify_action_outcome (ports : Ports) (st : ExecState) (_action : TaskAction) :
    ExecState × Except String Bool :=
  ({ st with verify_calls := st.verify_calls + 1 },
   ports.verify_outcome st.verify_calls)

/-- Embeds the final two lines of `_execute_with_verification`:
`end_time = loop.time(); result.execution_time_ms = int((end_time -
start_time) * 1000)` — the executor overwrites the `execution_time_ms`
field of the port-created result before returning it. -/
def set_execution_time (ports : Ports) (st : ExecState) (start_time : Int)
    (result : ExecutionResult) : ExecState × Except String ExecutionResult :=
  let end_time := ports.clock st.clock_calls
  ({ st with clock_calls := st.clock_calls + 1 },
   .ok { result with execution_time_ms := end_time - start_time })

/-- Embeds `MultimodalInteractionExecutor._execute_with_verification`:
read the clock, take a pre-action screenshot, invoke the browser port;
if the port reports success, take a post-action screenshot and consult
the judge, and on a rejected verdict overwrite `result.success` and
`result.error_message`; finally overwrite `result.execution_time_ms`.
An `.error` anywhere propagates (a raised exception). -/
def execute_with_verification (ports : Ports) (st : ExecState) (action : TaskAction) :
    ExecState × Except String ExecutionResult :=
  let start_time := ports.clock st.clock_calls
  let st := { st with clock_calls := st.clock_calls + 1 }
  let shot_before := ports.take_screenshot st.shot_calls
  let st := { st with shot_calls := st.shot_calls + 1 }
  match shot_before with
  | .error e => (st, .error e)
  | .ok _screenshot_before =>
    let exec_res := ports.execute_action st.exec_calls action
    let st := { st with exec_calls := st.exec_calls + 1 }
    match exec_res with
    | .error e => (st, .error e)
    | .ok result =>
      if result.success then
        let shot_after := ports.take_screenshot st.shot_calls
        let st := { st with shot_calls := st.shot_calls + 1 }
        match shot_after with
        | .error e => (st, .error e)
        | .ok _screenshot_after =>
          match verify_action_outcome ports st action with
          | (st, .error e) => (st, .error e)
          | (st, .ok verification_result) =>
            let result :=
              if verification_result then result
              else { result with
                       success := false,
                       error_message := some "Action did not produce expected outcome" }
            set_execution_time ports st start_time result
      else
        set_execution_time ports st start_time result

/-- Output of a run of the executor: the returned `results` list, the
plan's action list after the in-place mutations the loop performs, and
the final bookkeeping state. -/
structure ExecRun where
  results : List ExecutionResult
  actions : List TaskAction
  state : ExecState
  deriving DecidableEq, Repr

/-- Embeds the `for action in plan.actions` loop of
`MultimodalInteractionExecutor.execute_plan`.  Per iteration the `try`
block runs `_execute_with_verification`, appends its result, then
evaluates the `execution_log.append` entry whose
`"timestamp": datetime.utcnow()` raises `AttributeError` (the module,
not the class, is imported).  Consequently:
* if the attempt raised (a port call faulted), the `except` clause
  appends one synthesized failure result carrying `str(e)` and breaks;
* if the attempt returned normally, the log line's `AttributeError` is
  caught by the same `except`, which appends a second synthesized
  failure result (for the same action) and breaks.
Either way the loop body runs exactly once per call (for a nonempty
action list) and the code after the log append — the
`if not result.success` retry/fail bookkeeping (`retry_count += 1`,
`status = PENDING`/`FAILED`, `continue`/`break`) and the
`status = COMPLETED` assignment — is unreachable: no status is ever
written and `retry_count` never changes.  The embedding therefore
unrolls the loop to its single reachable iteration. -/
def execute_plan_go (ports : Ports) : ExecState → List TaskAction → ExecRun
  | st, [] => ⟨[], [], st⟩
  | st, action :: rest =>
    match execute_with_verification ports st action with
    | (st, .error e) =>
      ⟨[{ action_id := action.id, success := false, result_data := none,
          error_message := some e, screenshot_path := none,
          execution_time_ms := 0 }],
       action :: rest, st⟩
    | (st, .ok result) =>
      ⟨[result,
        { action_id := action.id, success := false, result_data := none,
          error_message := some datetime_utcnow_error, screenshot_path := none,
          execution_time_ms := 0 }],
       action :: rest, st⟩

/-- Embeds `MultimodalInteractionExecutor.execute_plan`: drive every
action of the plan through the loop, starting from fresh call counters. -/
def execute_plan (ports : Ports) (plan : TaskPlan) : ExecRun :=
  execute_plan_go ports {} plan.actions

/-- Intent dict returned by `ConversationPort.understand_intent`
(`cpm/services.py`).  The source reads it with
`updated_intent.get('requires_replanning')` (truthiness) and
`intent.get('summary', ...)`; the two consulted keys are modelled as
fields. -/
structure Intent where
  requires_replanning : Bool := false
  summary : Option String := none
  deriving DecidableEq, Repr

/-- Scene graph of a page (`vli/models.py`, `SceneGraph`), abbreviated:
the visual-element trees and float confidences are read by no claim, and
`handle_clarification` only ever passes `None` for the scene graph. -/
structure SceneGraph where
  page_title : String
  metadata : List (String × String)
  deriving DecidableEq, Repr

/-- Oracle view of the LLM conversation adapter (`cpm/services.py`,
`ConversationPort`): intent understanding and plan generation are
external calls. -/
structure ConversationPort where
  understand_intent : String → ConversationContext → Intent
  generate_plan : Intent → Option SceneGraph → TaskPlan

/-- Registry state `ConversationalPlanManager.active_sessions`: a Python
dict from session id to the active plan, modelled as an association list
in insertion order. -/
abbrev Sessions := List (String × TaskPlan)

/-- Dict lookup `self.active_sessions[session_id]` / the containment test
`session_id not in self.active_sessions`. -/
def lookup_session (sessions : Sessions) (session_id : String) : Option TaskPlan :=
  (sessions.find? (fun p => p.1 == session_id)).map (fun p => p.2)

/-- Dict assignment `self.active_sessions[session_id] = plan`: replace
the value in place when the key exists, append otherwise. -/
def set_session (sessions : Sessions) (session_id : String) (plan : TaskPlan) :
    Sessions :=
  if sessions.any (fun p => p.1 == session_id) then
    sessions.map (fun p => if p.1 == session_id then (p.1, plan) else p)
  else
    sessions ++ [(session_id, plan)]

/-- Embeds `ConversationalPlanManager.handle_clarification`: raise
`ValueError` when the session id is unknown; otherwise consult
`understand_intent`, and when it signals `requires_replanning`, generate
a new plan, carry the old plan's context over to it, store it as the
session's active plan and return it; otherwise return the existing plan
unchanged.  The returned pair is (registry state after the call, either
the raised error or the returned plan). -/
def handle_clarification (port : ConversationPort) (sessions : Sessions)
    (session_id clarification : String) : Sessions × Except String TaskPlan :=
  match lookup_session sessions session_id with
  | none => (sessions, .error ("Session " ++ session_id ++ " not found"))
  | some plan =>
    let updated_intent := port.understand_intent clarification plan.context
    if updated_intent.requires_replanning then
      let generated := port.generate_plan updated_intent none
      let new_plan := { generated with context := plan.context }
      (set_session sessions session_id new_plan, .ok new_plan)
    else
      (sessions, .ok plan)

/-! Concrete fixtures used by the claim theorems and witnesses. -/

/-- Sample conversation context used in concrete runs. -/
def sampleContext : ConversationContext :=
  { session_id := "s1", user_id := "u1", current_url := "https://example.com",
    conversation_history := [], user_preferences := [], accessibility_needs := [] }

/-- Fresh click action (default `retry_count = 0`, `max_retries = 3`,
status `PENDING`). -/
def mkAction (i : String) : TaskAction :=
  { id := i, action_type := ActionType.CLICK, target_selector := some "#btn",
    parameters := [], expected_outcome := "clicked" }

/-- Plan wrapping the given actions. -/
def mkPlan (acts : List TaskAction) : TaskPlan :=
  { id := "p1", user_intent := "do it", actions := acts, context := sampleContext,
    status := TaskStatus.PENDING, created_at := 0,
    estimated_duration_seconds := 10, checkpoints := [] }

/-- Ports where every call succeeds and the judge approves every outcome. -/
def okPorts : Ports :=
  { take_screenshot := fun _ => .ok "shot"
    execute_action := fun _ a =>
      .ok { action_id := a.id, success := true, result_data := none,
            error_message := none, screenshot_path := none, execution_time_ms := 0 }
    verify_outcome := fun _ => .ok true
    clock := fun _ => 0 }

/-- Ports whose browser port always reports failure (no exception). -/
def failPorts : Ports :=
  { take_screenshot := fun _ => .ok "shot"
    execute_action := fun _ a =>
      .ok { action_id := a.id, success := false, result_data := none,
            error_message := some "port reported failure", screenshot_path := none,
            execution_time_ms := 0 }
    verify_outcome := fun _ => .ok true
    clock := fun _ => 0 }

/-- Ports whose browser port reports success but whose judge rejects every
outcome. -/
def judgeRejectPorts : Ports :=
  { take_screenshot := fun _ => .ok "shot"
    execute_action := fun _ a =>
      .ok { action_id := a.id, success := true, result_data := none,
            error_message := none, screenshot_path := none, execution_time_ms := 0 }
    verify_outcome := fun _ => .ok false
    clock := fun _ => 0 }

/-- Ports whose browser port raises an exception on every action attempt. -/
def faultPorts : Ports :=
  { take_screenshot := fun _ => .ok "shot"
    execute_action := fun _ _ => .error "network down"
    verify_outcome := fun _ => .ok true
    clock := fun _ => 0 }

/-- Previously active plan of session "s1": one still-pending action. -/
def oldPlanC5 : TaskPlan := mkPlan [mkAction "a1"]

/-- Plan the planning port generates on replanning (its own fresh context
is overwritten by the session's context in `handle_clarification`). -/
def genPlanC5 : TaskPlan :=
  { id := "p2", user_intent := "revised intent", actions := [mkAction "b1"],
    context := { session_id := "s1", user_id := "u1",
                 current_url := "https://example.com/other",
                 conversation_history := [], user_preferences := [],
                 accessibility_needs := [] },
    status := TaskStatus.PENDING, created_at := 1,
    estimated_duration_seconds := 5, checkpoints := [] }

/-- Conversation adapter that always requests replanning and always
generates `genPlanC5`. -/
def replanPort : ConversationPort :=
  { understand_intent := fun _ _ => { requires_replanning := true, summary := none }
    generate_plan := fun _ _ => genPlanC5 }

/-- Claim C1 (code bug): with a port that always reports failure, the
run attempts only the first action, once (`exec_calls = 1`): the logging
line raises `AttributeError` before the retry bookkeeping, so the
`except` appends a second synthesized failure result (for the same
action) and breaks.  `retry_count` stays 0, no status is ever written,
and no action reaches `FAILED` — the claim instead requires the first
action to be re-attempted until, after `max_retries = 3` retry
transitions incrementing `retry_count`, it is `FAILED`.  (Even without
the crash the retry logic would not re-attempt: its `continue` sits in
`for action in plan.actions`, despite the adjacent comment "Retry the
action".) -/
theorem C1_code_bug_eval :
    (execute_plan failPorts (mkPlan [mkAction "a1", mkAction "a2"])).results.map
        (fun r => (r.action_id, r.success, r.error_message)) =
      [("a1", false, some "port reported failure"),
       ("a1", false, some datetime_utcnow_error)] ∧
    (execute_plan failPorts (mkPlan [mkAction "a1", mkAction "a2"])).state.exec_calls = 1 ∧
    (execute_plan failPorts (mkPlan [mkAction "a1", mkAction "a2"])).actions.map
        (fun a => (a.id, a.status, a.retry_count)) =
      [("a1", TaskStatus.PENDING, 0), ("a2", TaskStatus.PENDING, 0)] ∧
    (execute_plan failPorts
        (mkPlan [mkAction "a1", mkAction "a2"])).state.status_writes = [] := by
  decide

/-- Claim C4 (code bug): when the port reports success but the judge
rejects the outcome, the executor does flip the result to failure with
the distinguishing message "Action did not produce expected outcome" and
does not mark the action `Completed` — but the required retry never
happens: the attempt returns normally, so the logging line raises
`AttributeError` before the retry bookkeeping; the action is attempted
exactly once (`exec_calls = 1`), `retry_count` stays 0, its status stays
`PENDING`, and a second synthesized failure result is appended. -/
theorem C4_code_bug_eval :
    (execute_plan judgeRejectPorts (mkPlan [mkAction "a1"])).state.exec_calls = 1 ∧
    (execute_plan judgeRejectPorts (mkPlan [mkAction "a1"])).actions.map
        (fun a => (a.status, a.retry_count)) = [(TaskStatus.PENDING, 0)] ∧
    (execute_plan judgeRejectPorts (mkPlan [mkAction "a1"])).results.map
        (fun r => (r.success, r.error_message)) =
      [(false, some "Action did not produce expected outcome"),
       (false, some datetime_utcnow_error)] ∧
    TaskStatus.PENDING ≠ TaskStatus.COMPLETED := by
  decide

/-- Claim C3, counterexample: when the browser port raises ("network
down"), the `except` clause appends a synthesized failure result and
breaks, but it never assigns `FAILED`: the faulting action's status stays
`PENDING`, refuting "the action terminates with status Failed". -/
theorem C3_counterexample :
    (execute_plan faultPorts (mkPlan [mkAction "a1"])).actions.map (fun a => a.status) =
      [TaskStatus.PENDING] ∧
    (execute_plan faultPorts (mkPlan [mkAction "a1"])).results.map
        (fun r => (r.success, r.error_message)) = [(false, some "network down")] ∧
    TaskStatus.PENDING ≠ TaskStatus.FAILED := by
  decide

/-- Claim C7, counterexample: on a plan whose single action already has
the terminal status `COMPLETED`, a (second) call of `execute_plan` still
invokes the browser port and the judge (`exec_calls = 1`,
`verify_calls = 1`), refuting "invokes no ActionPort or OutcomeJudge
call": the loop never consults action statuses. -/
theorem C7_counterexample :
    (execute_plan okPorts (mkPlan [{ mkAction "a1" with status := TaskStatus.COMPLETED }])).state.exec_calls = 1 ∧
    (execute_plan okPorts (mkPlan [{ mkAction "a1" with status := TaskStatus.COMPLETED }])).state.verify_calls = 1 ∧
    (execute_plan okPorts (mkPlan [{ mkAction "a1" with status := TaskStatus.COMPLETED }])).state.exec_calls ≠ 0 := by
  decide

/-- Claim C9, counterexample: the port creates an `ExecutionResult` with
`success = true` and no error message; after the judge rejects, the first
record the executor emits for that same attempt (the full results list is
that record followed by the synthesized `AttributeError` failure from the
crashing log line) has `success = false` and an error message — the
record was changed between its creation and its emission, refuting "no
field of it is mutated after its creation". -/
theorem C9_counterexample :
    judgeRejectPorts.execute_action 0 (mkAction "a1") =
      .ok { action_id := "a1", success := true, result_data := none,
            error_message := none, screenshot_path := none, execution_time_ms := 0 } ∧
    (execute_plan judgeRejectPorts (mkPlan [mkAction "a1"])).results.head? =
      some { action_id := "a1", success := false, result_data := none,
             error_message := some "Action did not produce expected outcome",
             screenshot_path := none, execution_time_ms := 0 } ∧
    ({ action_id := "a1", success := false, result_data := none,
       error_message := some "Action did not produce expected outcome",
       screenshot_path := none, execution_time_ms := 0 } : ExecutionResult) ≠
      { action_id := "a1", success := true, result_data := none,
        error_message := none, screenshot_path := none, execution_time_ms := 0 } :=
  ⟨rfl, by decide, by decide⟩

/-! Path lemmas for `execute_with_verification`: one equation per control
path of `_execute_with_verification`, in terms of the oracle values the
path consumes. -/

/-- Path equation: the pre-action screenshot raises. -/
theorem ewv_shot1_raises (ports : Ports) (st : ExecState) (a : TaskAction) (e : String)
    (h1 : ports.take_screenshot st.shot_calls = .error e) :
    execute_with_verification ports st a =
      ({ st with clock_calls := st.clock_calls + 1,
                 shot_calls := st.shot_calls + 1 }, .error e) := by
  simp [execute_with_verification, h1]

/-- Path equation: the browser port raises while performing the action. -/
theorem ewv_exec_raises (ports : Ports) (st : ExecState) (a : TaskAction) (s e : String)
    (h1 : ports.take_screenshot st.shot_calls = .ok s)
    (h2 : ports.execute_action st.exec_calls a = .error e) :
    execute_with_verification ports st a =
      ({ st with clock_calls := st.clock_calls + 1,
                 shot_calls := st.shot_calls + 1,
                 exec_calls := st.exec_calls + 1 }, .error e) := by
  simp [execute_with_verification, h1, h2]

/-- Path equation: the browser port reports failure (no exception); the
judge is not consulted, and only `execution_time_ms` is overwritten. -/
theorem ewv_reported_failure (ports : Ports) (st : ExecState) (a : TaskAction)
    (s : String) (r : ExecutionResult)
    (h1 : ports.take_screenshot st.shot_calls = .ok s)
    (h2 : ports.execute_action st.exec_calls a = .ok r)
    (hs : r.success = false) :
    execute_with_verification ports st a =
      ({ st with clock_calls := st.clock_calls + 1 + 1,
                 shot_calls := st.shot_calls + 1,
                 exec_calls := st.exec_calls + 1 },
       .ok { r with execution_time_ms :=
               ports.clock (st.clock_calls + 1) - ports.clock st.clock_calls }) := by
  simp [execute_with_verification, set_execution_time, h1, h2, hs]

/-- Path equation: the post-action screenshot raises. -/
theorem ewv_shot2_raises (ports : Ports) (st : ExecState) (a : TaskAction)
    (s e : String) (r : ExecutionResult)
    (h1 : ports.take_screenshot st.shot_calls = .ok s)
    (h2 : ports.execute_action st.exec_calls a = .ok r)
    (hs : r.success = true)
    (h3 : ports.take_screenshot (st.shot_calls + 1) = .error e) :
    execute_with_verification ports st a =
      ({ st with clock_calls := st.clock_calls + 1,
                 shot_calls := st.shot_calls + 1 + 1,
                 exec_calls := st.exec_calls + 1 }, .error e) := by
  simp [execute_with_verification, h1, h2, hs, h3]

/-- Path equation: the outcome verification raises. -/
theorem ewv_verify_raises (ports : Ports) (st : ExecState) (a : TaskAction)
    (s1 s2 e : String) (r : ExecutionResult)
    (h1 : ports.take_screenshot st.shot_calls = .ok s1)
    (h2 : ports.execute_action st.exec_calls a = .ok r)
    (hs : r.success = true)
    (h3 : ports.take_screenshot (st.shot_calls + 1) = .ok s2)
    (h4 : ports.verify_outcome st.verify_calls = .error e) :
    execute_with_verification ports st a =
      ({ st with clock_calls := st.clock_calls + 1,
                 shot_calls := st.shot_calls + 1 + 1,
                 exec_calls := st.exec_calls + 1,
                 verify_calls := st.verify_calls + 1 }, .error e) := by
  simp [execute_with_verification, verify_action_outcome, h1, h2, hs, h3, h4]

/-- Path equation: the port reports success but the judge rejects the
outcome; the executor overwrites `success`, `error_message` and
`execution_time_ms` of the port-created result. -/
theorem ewv_judge_reject (ports : Ports) (st : ExecState) (a : TaskAction)
    (s1 s2 : String) (r : ExecutionResult)
    (h1 : ports.take_screenshot st.shot_calls = .ok s1)
    (h2 : ports.execute_action st.exec_calls a = .ok r)
    (hs : r.success = true)
    (h3 : ports.take_screenshot (st.shot_calls + 1) = .ok s2)
    (h4 : ports.verify_outcome st.verify_calls = .ok false) :
    execute_with_verification ports st a =
      ({ st with clock_calls := st.clock_calls + 1 + 1,
                 shot_calls := st.shot_calls + 1 + 1,
                 exec_calls := st.exec_calls + 1,
                 verify_calls := st.verify_calls + 1 },
       .ok { r with success := false,
                    error_message := some "Action did not produce expected outcome",
                    execution_time_ms :=
                      ports.clock (st.clock_calls + 1) - ports.clock st.clock_calls }) := by
  simp [execute_with_verification, verify_action_outcome, set_execution_time,
        h1, h2, hs, h3, h4]

/-- Path equation: the port reports success and the judge confirms; only
`execution_time_ms` of the port-created result is overwritten. -/
theorem ewv_ok_verified (ports : Ports) (st : ExecState) (a : TaskAction)
    (s1 s2 : String) (r : ExecutionResult)
    (h1 : ports.take_screenshot st.shot_calls = .ok s1)
    (h2 : ports.execute_action st.exec_calls a = .ok r)
    (hs : r.success = true)
    (h3 : ports.take_screenshot (st.shot_calls + 1) = .ok s2)
    (h4 : ports.verify_outcome st.verify_calls = .ok true) :
    execute_with_verification ports st a =
      ({ st with clock_calls := st.clock_calls + 1 + 1,
                 shot_calls := st.shot_calls + 1 + 1,
                 exec_calls := st.exec_calls + 1,
                 verify_calls := st.verify_calls + 1 },
       .ok { r with execution_time_ms :=
               ports.clock (st.clock_calls + 1) - ports.clock st.clock_calls }) := by
  simp [execute_with_verification, verify_action_outcome, set_execution_time,
        h1, h2, hs, h3, h4]

/-- State effect common to every path of the attempt function: the status
write trace is untouched (the attempt assigns no status), and the
pre-action screenshot is always taken (`shot_calls` grows by at least
one). -/
theorem ewv_state_fields (ports : Ports) (st : ExecState) (a : TaskAction) :
    (execute_with_verification ports st a).1.status_writes = st.status_writes ∧
    st.shot_calls + 1 ≤ (execute_with_verification ports st a).1.shot_calls := by
  rcases hsb : ports.take_screenshot st.shot_calls with e | s1
  · rw [ewv_shot1_raises ports st a e hsb]; exact ⟨rfl, by dsimp; omega⟩
  · rcases hex : ports.execute_action st.exec_calls a with e | r0
    · rw [ewv_exec_raises ports st a s1 e hsb hex]; exact ⟨rfl, by dsimp; omega⟩
    · cases hs : r0.success with
      | false =>
        rw [ewv_reported_failure ports st a s1 r0 hsb hex hs]
        exact ⟨rfl, by dsimp; omega⟩
      | true =>
        rcases hsa : ports.take_screenshot (st.shot_calls + 1) with e | s2
        · rw [ewv_shot2_raises ports st a s1 e r0 hsb hex hs hsa]
          exact ⟨rfl, by dsimp; omega⟩
        · rcases hv : ports.verify_outcome st.verify_calls with e | b
          · rw [ewv_verify_raises ports st a s1 s2 e r0 hsb hex hs hsa hv]
            exact ⟨rfl, by dsimp; omega⟩
          · cases b with
            | false =>
              rw [ewv_judge_reject ports st a s1 s2 r0 hsb hex hs hsa hv]
              exact ⟨rfl, by dsimp; omega⟩
            | true =>
              rw [ewv_ok_verified ports st a s1 s2 r0 hsb hex hs hsa hv]
              exact ⟨rfl, by dsimp; omega⟩

/-- When an attempt returns a result (no exception) and the port tags its
results with the attempted action's id, the returned record carries that
id: the attempt only ever rewrites `success`, `error_message` and
`execution_time_ms` of the port-created record. -/
theorem ewv_ok_action_id (ports : Ports) (st : ExecState) (a : TaskAction)
    (r : ExecutionResult)
    (hid : ∀ n r0, ports.execute_action n a = .ok r0 → r0.action_id = a.id)
    (h : (execute_with_verification ports st a).2 = .ok r) :
    r.action_id = a.id := by
  rcases hsb : ports.take_screenshot st.shot_calls with e | s1
  · rw [ewv_shot1_raises ports st a e hsb] at h; simp at h
  · rcases hex : ports.execute_action st.exec_calls a with e | r0
    · rw [ewv_exec_raises ports st a s1 e hsb hex] at h; simp at h
    · cases hs : r0.success with
      | false =>
        rw [ewv_reported_failure ports st a s1 r0 hsb hex hs] at h
        simp only [Except.ok.injEq] at h
        subst h
        simpa using hid st.exec_calls r0 hex
      | true =>
        rcases hsa : ports.take_screenshot (st.shot_calls + 1) with e | s2
        · rw [ewv_shot2_raises ports st a s1 e r0 hsb hex hs hsa] at h; simp at h
        · rcases hv : ports.verify_outcome st.verify_calls with e | b
          · rw [ewv_verify_raises ports st a s1 s2 e r0 hsb hex hs hsa hv] at h
            simp at h
          · cases b with
            | false =>
              rw [ewv_judge_reject ports st a s1 s2 r0 hsb hex hs hsa hv] at h
              simp only [Except.ok.injEq] at h
              subst h
              simpa using hid st.exec_calls r0 hex
            | true =>
              rw [ewv_ok_verified ports st a s1 s2 r0 hsb hex hs hsa hv] at h
              simp only [Except.ok.injEq] at h
              subst h
              simpa using hid st.exec_calls r0 hex

/-- The loop performs no status write and leaves the action list intact:
both break paths return the attempt's state unchanged apart from call
counters (the source's status assignments are unreachable, see
`execute_plan_go`). -/
theorem go_state_and_actions (ports : Ports) (acts : List TaskAction)
    (st : ExecState) :
    (execute_plan_go ports st acts).state.status_writes = st.status_writes ∧
    (execute_plan_go ports st acts).actions = acts := by
  cases acts with
  | nil => exact ⟨rfl, rfl⟩
  | cons a rest =>
    have hf := (ewv_state_fields ports st a).1
    rcases h : execute_with_verification ports st a with ⟨st1, res⟩
    rw [h] at hf
    dsimp at hf
    cases res with
    | error e =>
      simp only [execute_plan_go, h]
      exact ⟨hf, trivial⟩
    | ok r =>
      simp only [execute_plan_go, h]
      exact ⟨hf, trivial⟩

/-- Looking up the assigned key in the in-place-replace branch of dict
assignment finds the new value exactly when the key was present. -/
theorem lookup_session_map_replace (k : String) (v : TaskPlan) :
    ∀ t : Sessions,
      lookup_session (t.map (fun p => if p.1 == k then (p.1, v) else p)) k =
        if t.any (fun p => p.1 == k) then some v else none := by
  intro t
  induction t with
  | nil => simp [lookup_session]
  | cons q t ih =>
    cases hq : (q.1 == k) with
    | false =>
      simp only [List.map_cons, hq, if_false, List.any_cons, Bool.false_or,
                 Bool.false_eq_true]
      simp only [lookup_session, List.find?_cons, hq] at ih ⊢
      exact ih
    | true =>
      simp only [List.map_cons, hq, if_true, List.any_cons, Bool.true_or]
      simp [lookup_session, List.find?_cons, hq]

/-- Looking up a key appended to a dict that did not contain it finds the
appended value. -/
theorem lookup_session_append_self (k : String) (v : TaskPlan) :
    ∀ t : Sessions, t.any (fun p => p.1 == k) = false →
      lookup_session (t ++ [(k, v)]) k = some v := by
  intro t
  induction t with
  | nil => simp [lookup_session, List.find?]
  | cons q t ih =>
    intro h
    simp only [List.any_cons, Bool.or_eq_false_iff] at h
    obtain ⟨hq, ht⟩ := h
    simp only [List.cons_append, lookup_session, List.find?_cons, hq]
    exact ih ht

/-- Dict assignment followed by lookup of the same key yields the
assigned value. -/
theorem lookup_set_session (s : Sessions) (k : String) (v : TaskPlan) :
    lookup_session (set_session s k v) k = some v := by
  unfold set_session
  by_cases h : s.any (fun p => p.1 == k) = true
  · rw [if_pos h, lookup_session_map_replace, if_pos h]
  · rw [if_neg h]
    exact lookup_session_append_self k v s (Bool.not_eq_true _ ▸ eq_false_of_ne_true h)

/-- Claim C2 (code bug): on an all-success 3-action plan the run returns
TWO results — the first action's success record followed by a synthesized
failure for the SAME action — and never attempts actions 2 and 3
(`exec_calls = 1`): after the first attempt returns, the logging line
`datetime.utcnow()` raises `AttributeError` (the source imports the
`datetime` module, which has no `utcnow` attribute), the `except` appends
the synthesized failure and breaks.  The claim's N all-success results in
plan order are unreachable for every N ≥ 1: the second result always has
`success = false`. -/
theorem C2_code_bug_eval :
    (execute_plan okPorts
        (mkPlan [mkAction "a1", mkAction "a2", mkAction "a3"])).results.map
        (fun r => (r.action_id, r.success)) = [("a1", true), ("a1", false)] ∧
    (execute_plan okPorts
        (mkPlan [mkAction "a1", mkAction "a2", mkAction "a3"])).state.exec_calls = 1 ∧
    (execute_plan okPorts
        (mkPlan [mkAction "a1", mkAction "a2", mkAction "a3"])).results.length ≠
      (mkPlan [mkAction "a1", mkAction "a2", mkAction "a3"]).actions.length := by
  decide

/-- Claim C3 (amended): when a port call raises during an action's
attempt (here: `execute_action` raises on the plan's first action), the
`except` clause appends one synthesized failure result carrying the
exception text and `execute_plan` stops processing the remaining actions,
with no retry transition and no status write at all — so the action's
status is left unchanged (still `Pending` for a fresh action), NOT set to
`Failed`. -/
theorem C3_fault_behavior (ports : Ports) (plan : TaskPlan) (a : TaskAction)
    (rest : List TaskAction) (s e : String)
    (hacts : plan.actions = a :: rest)
    (h1 : ports.take_screenshot 0 = .ok s)
    (h2 : ports.execute_action 0 a = .error e) :
    (execute_plan ports plan).results =
      [{ action_id := a.id, success := false, result_data := none,
         error_message := some e, screenshot_path := none,
         execution_time_ms := 0 }] ∧
    (execute_plan ports plan).actions = a :: rest ∧
    (execute_plan ports plan).state.status_writes = [] ∧
    (execute_plan ports plan).state.exec_calls = 1 := by
  have he := ewv_exec_raises ports {} a s e h1 h2
  unfold execute_plan
  rw [hacts]
  simp only [execute_plan_go, he]
  exact ⟨trivial, trivial, trivial, trivial⟩

/-- Witness for (amended) C3: concrete faulting port on a 2-action plan. -/
theorem C3_fault_witness :
    (execute_plan faultPorts (mkPlan [mkAction "a1", mkAction "a2"])).results =
      [{ action_id := (mkAction "a1").id, success := false, result_data := none,
         error_message := some "network down", screenshot_path := none,
         execution_time_ms := 0 }] ∧
    (execute_plan faultPorts (mkPlan [mkAction "a1", mkAction "a2"])).actions =
      mkAction "a1" :: [mkAction "a2"] ∧
    (execute_plan faultPorts
        (mkPlan [mkAction "a1", mkAction "a2"])).state.status_writes = [] ∧
    (execute_plan faultPorts
        (mkPlan [mkAction "a1", mkAction "a2"])).state.exec_calls = 1 :=
  C3_fault_behavior faultPorts (mkPlan [mkAction "a1", mkAction "a2"])
    (mkAction "a1") [mkAction "a2"] "shot" "network down" rfl rfl rfl

/-- Claim C5, counterexample: a replanning clarification stores the new
plan as session "s1"'s active plan, but no `Cancelled` status is ever
assigned: the previous plan's still-pending action keeps status
`PENDING` (the source contains no status assignment in
`handle_clarification`), refuting the claim's cancellation clause. -/
theorem C5_counterexample :
    handle_clarification replanPort [("s1", oldPlanC5)] "s1" "use the other form" =
      ([("s1", { genPlanC5 with context := oldPlanC5.context })],
       .ok { genPlanC5 with context := oldPlanC5.context }) ∧
    oldPlanC5.actions.map (fun a => a.status) = [TaskStatus.PENDING] ∧
    TaskStatus.PENDING ≠ TaskStatus.CANCELLED :=
  ⟨rfl, by decide, by decide⟩

/-- Claim C5 (amended): when the revision signals
`requires_replanning = true`, the registry's active plan for the session
becomes the newly generated plan (with the old plan's context carried
over) — but the previous plan's actions are left untouched: no
`Cancelled` (or any other) status is assigned to them. -/
theorem C5_replaces_active_plan (port : ConversationPort) (sessions : Sessions)
    (sid clar : String) (plan : TaskPlan)
    (hlook : lookup_session sessions sid = some plan)
    (hrep : (port.understand_intent clar plan.context).requires_replanning = true) :
    handle_clarification port sessions sid clar =
      (set_session sessions sid
         { port.generate_plan (port.understand_intent clar plan.context) none with
             context := plan.context },
       .ok { port.generate_plan (port.understand_intent clar plan.context) none with
               context := plan.context }) ∧
    lookup_session (handle_clarification port sessions sid clar).1 sid =
      some { port.generate_plan (port.understand_intent clar plan.context) none with
               context := plan.context } := by
  have hmain : handle_clarification port sessions sid clar =
      (set_session sessions sid
         { port.generate_plan (port.understand_intent clar plan.context) none with
             context := plan.context },
       .ok { port.generate_plan (port.understand_intent clar plan.context) none with
               context := plan.context }) := by
    unfold handle_clarification
    rw [hlook]
    simp [hrep]
  exact ⟨hmain, by rw [hmain]; exact lookup_set_session sessions sid _⟩

/-- Witness for (amended) C5 at the concrete replanning fixture. -/
theorem C5_witness :
    handle_clarification replanPort [("s1", oldPlanC5)] "s1" "clarify" =
      (set_session [("s1", oldPlanC5)] "s1"
         { replanPort.generate_plan
             (replanPort.understand_intent "clarify" oldPlanC5.context) none with
             context := oldPlanC5.context },
       .ok { replanPort.generate_plan
               (replanPort.understand_intent "clarify" oldPlanC5.context) none with
               context := oldPlanC5.context }) ∧
    lookup_session
        (handle_clarification replanPort [("s1", oldPlanC5)] "s1" "clarify").1 "s1" =
      some { replanPort.generate_plan
               (replanPort.understand_intent "clarify" oldPlanC5.context) none with
               context := oldPlanC5.context } :=
  C5_replaces_active_plan replanPort [("s1", oldPlanC5)] "s1" "clarify" oldPlanC5
    rfl rfl

/-- Claim C6: a clarification for a session id with no active plan raises
the session-not-found error and leaves the registry's session map
completely unchanged — in particular no session is created. -/
theorem C6_unknown_session (port : ConversationPort) (sessions : Sessions)
    (sid clar : String)
    (hlook : lookup_session sessions sid = none) :
    handle_clarification port sessions sid clar =
      (sessions, .error ("Session " ++ sid ++ " not found")) := by
  unfold handle_clarification
  rw [hlook]

/-- Witness for C6: unknown session on an empty registry. -/
theorem C6_witness :
    handle_clarification replanPort [] "ghost" "hello" =
      ([], .error ("Session " ++ "ghost" ++ " not found")) :=
  C6_unknown_session replanPort [] "ghost" "hello" rfl

/-- Claim C7 (amended): `execute_plan` never consults action statuses, so
a (second) call on a plan whose every action already has a terminal
status is NOT a no-op: the executor re-executes from the first action,
invoking the browser port again (at least the pre-action screenshot is
taken); no stored results exist to return. -/
theorem C7_not_a_noop (ports : Ports) (plan : TaskPlan) (a : TaskAction)
    (rest : List TaskAction)
    (hacts : plan.actions = a :: rest)
    (hterm : ∀ x ∈ plan.actions,
        x.status = TaskStatus.COMPLETED ∨ x.status = TaskStatus.FAILED ∨
          x.status = TaskStatus.CANCELLED) :
    1 ≤ (execute_plan ports plan).state.shot_calls := by
  unfold execute_plan
  rw [hacts]
  have hf := (ewv_state_fields ports {} a).2
  rcases h : execute_with_verification ports ({} : ExecState) a with ⟨st1, res⟩
  rw [h] at hf
  dsimp at hf
  cases res with
  | error e =>
    simp only [execute_plan_go, h]
    omega
  | ok r =>
    simp only [execute_plan_go, h]
    omega

/-- Witness for (amended) C7: a plan whose single action is already
`COMPLETED` still causes a port call. -/
theorem C7_witness :
    1 ≤ (execute_plan okPorts
          (mkPlan [{ mkAction "a1" with
                       status := TaskStatus.COMPLETED }])).state.shot_calls :=
  C7_not_a_noop okPorts
    (mkPlan [{ mkAction "a1" with status := TaskStatus.COMPLETED }])
    { mkAction "a1" with status := TaskStatus.COMPLETED } [] rfl (by decide)

/-- Claim C8, counterexample: at all-success ports on a 2-action plan
the run emits two results, BOTH tagged with the first action's id
(`["a1", "a1"]`) — the second is the synthesized `AttributeError` failure
for action 1, not action 2's result — so the results do not stand in
one-per-action correspondence with the plan's action order. -/
theorem C8_counterexample :
    (execute_plan okPorts (mkPlan [mkAction "a1", mkAction "a2"])).results.map
        (fun r => r.action_id) = ["a1", "a1"] ∧
    ((mkPlan [mkAction "a1", mkAction "a2"]).actions.take 2).map
        (fun a => a.id) = ["a1", "a2"] ∧
    (["a1", "a1"] : List String) ≠ ["a1", "a2"] := by
  decide

/-- Claim C8 (amended): every run stops at the plan's first action (the
logging line raises after the first attempt, and a faulting attempt also
breaks), so — provided the port tags each result with the attempted
action's id — every emitted result is tagged with the FIRST action's id
(at most two results: the attempt's record, then the synthesized
failure), and degenerately no result for a later action is ever emitted,
let alone out of order. -/
theorem C8_first_action_only (ports : Ports) (plan : TaskPlan) (a : TaskAction)
    (rest : List TaskAction)
    (hacts : plan.actions = a :: rest)
    (hid : ∀ n a0 r, ports.execute_action n a0 = .ok r → r.action_id = a0.id) :
    (execute_plan ports plan).results.map (fun r => r.action_id) =
      List.replicate (execute_plan ports plan).results.length a.id ∧
    (execute_plan ports plan).results.length ≤ 2 := by
  unfold execute_plan
  rw [hacts]
  rcases h : execute_with_verification ports ({} : ExecState) a with ⟨st1, res⟩
  cases res with
  | error e =>
    simp only [execute_plan_go, h]
    simp [List.replicate]
  | ok r =>
    have hrid : r.action_id = a.id :=
      ewv_ok_action_id ports {} a r (fun n r0 h0 => hid n a r0 h0) (by rw [h])
    simp only [execute_plan_go, h]
    simp [List.replicate, hrid]

/-- Witness for (amended) C8 on a concrete 2-action plan. -/
theorem C8_witness :
    (execute_plan okPorts (mkPlan [mkAction "a1", mkAction "a2"])).results.map
        (fun r => r.action_id) =
      List.replicate
        (execute_plan okPorts
          (mkPlan [mkAction "a1", mkAction "a2"])).results.length
        (mkAction "a1").id ∧
    (execute_plan okPorts (mkPlan [mkAction "a1", mkAction "a2"])).results.length ≤ 2 :=
  C8_first_action_only okPorts (mkPlan [mkAction "a1", mkAction "a2"])
    (mkAction "a1") [mkAction "a2"] rfl
    (fun _ _ r h => by injection h with h1; subst h1; rfl)

/-- Claim C9 (amended): before emitting an attempt's record, the executor
rewrites exactly `execution_time_ms` (always) and, on a judge rejection,
`success` and `error_message` of the port-created `ExecutionResult`; all
other fields (`action_id`, `result_data`, `screenshot_path`) are
preserved, and a record emitted into the results list is never changed
afterwards. -/
theorem C9_rewrites_before_emission (ports : Ports) (st : ExecState)
    (a : TaskAction) (s1 s2 : String) (r : ExecutionResult)
    (h1 : ports.take_screenshot st.shot_calls = .ok s1)
    (h2 : ports.execute_action st.exec_calls a = .ok r)
    (hs : r.success = true)
    (h3 : ports.take_screenshot (st.shot_calls + 1) = .ok s2)
    (h4 : ports.verify_outcome st.verify_calls = .ok false) :
    (execute_with_verification ports st a).2 =
      .ok { r with
              success := false,
              error_message := some "Action did not produce expected outcome",
              execution_time_ms :=
                ports.clock (st.clock_calls + 1) - ports.clock st.clock_calls } := by
  rw [ewv_judge_reject ports st a s1 s2 r h1 h2 hs h3 h4]

/-- Witness for (amended) C9 at the concrete judge-rejecting fixture. -/
theorem C9_witness :
    (execute_with_verification judgeRejectPorts {} (mkAction "a1")).2 =
      .ok { action_id := "a1", success := false, result_data := none,
            error_message := some "Action did not produce expected outcome",
            screenshot_path := none,
            execution_time_ms :=
              judgeRejectPorts.clock (({} : ExecState).clock_calls + 1) -
                judgeRejectPorts.clock ({} : ExecState).clock_calls } :=
  C9_rewrites_before_emission judgeRejectPorts {} (mkAction "a1") "shot" "shot"
    { action_id := "a1", success := true, result_data := none,
      error_message := none, screenshot_path := none, execution_time_ms := 0 }
    rfl rfl rfl rfl rfl

/-- Claim C10: the executor performs no status write at all (its
assignments are unreachable, so a fortiori it never assigns
`IN_PROGRESS` or `CANCELLED`), and for a plan none of whose actions
starts in `IN_PROGRESS` or `CANCELLED` (the data model initializes
actions to `PENDING`), every action's status when `execute_plan` returns
is `PENDING`, `COMPLETED` or `FAILED` — each action simply keeps its
initial status. -/
theorem C10_statuses (ports : Ports) (plan : TaskPlan)
    (hinit : ∀ x ∈ plan.actions,
        x.status ≠ TaskStatus.IN_PROGRESS ∧ x.status ≠ TaskStatus.CANCELLED) :
    (∀ w ∈ (execute_plan ports plan).state.status_writes,
        w.2 ≠ TaskStatus.IN_PROGRESS ∧ w.2 ≠ TaskStatus.CANCELLED) ∧
    (∀ x ∈ (execute_plan ports plan).actions,
        x.status = TaskStatus.PENDING ∨ x.status = TaskStatus.COMPLETED ∨
          x.status = TaskStatus.FAILED) := by
  unfold execute_plan
  constructor
  · intro w hw
    rw [(go_state_and_actions ports plan.actions {}).1] at hw
    simp at hw
  · intro x hx
    rw [(go_state_and_actions ports plan.actions {}).2] at hx
    obtain ⟨hip, hcan⟩ := hinit x hx
    cases hst : x.status with
    | PENDING => exact Or.inl rfl
    | IN_PROGRESS => exact absurd hst hip
    | COMPLETED => exact Or.inr (Or.inl rfl)
    | FAILED => exact Or.inr (Or.inr rfl)
    | CANCELLED => exact absurd hst hcan

/-- Witness for C10 on a concrete pending plan with all-success ports. -/
theorem C10_witness :
    (∀ w ∈ (execute_plan okPorts (mkPlan [mkAction "a1"])).state.status_writes,
        w.2 ≠ TaskStatus.IN_PROGRESS ∧ w.2 ≠ TaskStatus.CANCELLED) ∧
    (∀ x ∈ (execute_plan okPorts (mkPlan [mkAction "a1"])).actions,
        x.status = TaskStatus.PENDING ∨ x.status = TaskStatus.COMPLETED ∨
          x.status = TaskStatus.FAILED) :=
  C10_statuses okPorts (mkPlan [mkAction "a1"]) (by decide)
